import Mathlib

/-!
Verification development for the "top projects / top contributions"
computation, caching and admission subsystem
(source: src/unnamed/part_000, a TypeScript controller).

The TypeScript source is shallowly embedded:

* JavaScript request values (`req.query` fields before coercion) are the
  inductive `JSValue`.
* JavaScript numbers are modelled as exact decimals `JSNum`
  (`mant / 10 ^ scale`); `JNum := Option JSNum` with `none` playing the
  role of `NaN`.  The source only ever adds, compares and truncates these
  values, so exact decimals are a faithful model of the observable
  behaviour (binary-double rounding is not observable in any property
  treated here).
* The module-level mutable `cache` object is threaded explicitly as an
  association list from cache id to `TaskModel`.
* `res.json(x)` calls are recorded, in order, in a list of `ResPayload`.
* Dates are their millisecond timestamps (`Date.getTime()`), as the source
  itself only compares and subtracts those.
-/

/-- A JavaScript request value as it arrives in `req.query` / `req.body`
(before any coercion): a string, a boolean, a number, or `undefined`. -/
inductive JSValue where
  | undef : JSValue
  | bool (b : Bool) : JSValue
  | num (mant : Int) (scale : Nat) : JSValue
  | str (s : String) : JSValue
deriving Repr, DecidableEq

/-- Source `getBoolean` (part_000 lines 220-222):
`return val === true || val === 'true';` — strict equality against the
boolean `true` and the exact string `'true'`. -/
def getBoolean (val : JSValue) : Bool :=
  val == JSValue.bool true || val == JSValue.str "true"

/-- A finite JavaScript number, modelled as the exact decimal
`mant / 10 ^ scale`.  Every number the source manipulates is produced by
`Number(...)` or `parseFloat(...)` from decimal notation, then only added
and compared, so exact decimals model the observable behaviour. -/
structure JSNum where
  mant : Int
  scale : Nat
deriving Repr, DecidableEq

/-- A JavaScript number including `NaN` (`none` is `NaN`). -/
abbrev JNum := Option JSNum

/-- Embed an integer as a `JSNum`. -/
def JSNum.ofInt (i : Int) : JSNum := ⟨i, 0⟩

/-- Value-level strict order on `JSNum` (cross-multiplied by powers of ten). -/
def JSNum.ltb (a b : JSNum) : Bool :=
  a.mant * (10 : Int) ^ b.scale < b.mant * (10 : Int) ^ a.scale

/-- Value-level non-strict order on `JSNum`. -/
def JSNum.leb (a b : JSNum) : Bool :=
  a.mant * (10 : Int) ^ b.scale ≤ b.mant * (10 : Int) ^ a.scale

/-- Exact addition of `JSNum`s (common denominator `10 ^ (s₁ + s₂)`). -/
def JSNum.add (a b : JSNum) : JSNum :=
  ⟨a.mant * (10 : Int) ^ b.scale + b.mant * (10 : Int) ^ a.scale, a.scale + b.scale⟩

/-- JavaScript `isNaN` on a coerced number. -/
def jnumIsNaN (n : JNum) : Bool := n.isNone

/-- JavaScript `n > c` for `c` an integer constant: `false` when `n` is
`NaN`, the numeric comparison otherwise. -/
def jnumGtInt (n : JNum) (c : Int) : Bool :=
  match n with
  | none => false
  | some a => JSNum.ltb (JSNum.ofInt c) a

/-- JavaScript `+` on possibly-`NaN` numbers: `NaN` is absorbing. -/
def jnumAdd (a b : JNum) : JNum :=
  match a, b with
  | some x, some y => some (JSNum.add x y)
  | _, _ => none

/-- JavaScript `s.split(' ')[0]`: the characters before the first space
(the whole string when it has no space). -/
def jsSplitFirst (s : String) : String :=
  ⟨s.data.takeWhile (fun c => !(c == ' '))⟩

/-- Numeric value of a list of decimal digit characters (most significant
first), as an integer. -/
def digitsVal (cs : List Char) : Int :=
  cs.foldl (fun a c => a * 10 + ((c.toNat : Int) - 48)) 0

/-- Model of the JavaScript builtin `parseFloat` on decimal notation:
skip leading whitespace, optional sign, integer digits, optional `.` and
fraction digits; `NaN` when no digit was consumed.  (Exponent notation is
not modelled; the payout strings the source parses are plain decimals
`"<amount> <currency>"`.) -/
def jsParseFloat (s : String) : JNum :=
  let cs := s.data.dropWhile (fun c => c == ' ' || c == '\t' || c == '\n' || c == '\r')
  let sgn : Int := match cs with
    | '-' :: _ => -1
    | _ => 1
  let cs1 := match cs with
    | '-' :: rest => rest
    | '+' :: rest => rest
    | _ => cs
  let intd := cs1.takeWhile Char.isDigit
  let rest := cs1.dropWhile Char.isDigit
  let fracd := match rest with
    | '.' :: r2 => r2.takeWhile Char.isDigit
    | _ => []
  if intd.isEmpty && fracd.isEmpty then none
  else some ⟨sgn * (digitsVal intd * (10 : Int) ^ fracd.length + digitsVal fracd),
             fracd.length⟩

/-- Source `TaskStatus` enum (part_000 lines 12-16): ERROR = -1,
SUCCESS = 0, IN_PROGRESS = 1. -/
inductive TaskStatus where
  | ERROR : TaskStatus
  | SUCCESS : TaskStatus
  | IN_PROGRESS : TaskStatus
deriving Repr, DecidableEq

/-- Numeric value of a `TaskStatus` (the TS enum values). -/
def TaskStatus.toInt : TaskStatus → Int
  | .ERROR => -1
  | .SUCCESS => 0
  | .IN_PROGRESS => 1

/-- A contribution record (a "post") as the aggregation sees it.
`created` is the record's creation timestamp in milliseconds (the source
only ever uses `new Date(post.created).getTime()`); `project` is the
grouping identity used by the by-project aggregation; `active_votes` is
the length of the record's vote list (only the length is ever read);
the two payout fields are the raw monetary strings, `none` once cleared
(JS `undefined`, absent from serialized output); `rewards` is the
computed total, absent until set. -/
structure Post where
  project : String
  created : Int
  active_votes : Nat
  pending_payout_value : Option String := none
  total_payout_value : Option String := none
  rewards : Option JNum := none
deriving Repr, DecidableEq

/-- A by-project aggregation group: project identity plus the grouped
member records (`none` once the working list is discarded), plus the
group-level `rewards` total once computed. -/
structure RepoGroup where
  project : String
  posts : Option (List Post) := none
  rewards : Option JNum := none
deriving Repr, DecidableEq

/-- One element of a task's `results`: a project group or a single
contribution record, depending on the query's granularity. -/
inductive Entry where
  | repo (g : RepoGroup) : Entry
  | post (p : Post) : Entry
deriving Repr, DecidableEq

/-- Source `TaskModel` (part_000 lines 18-22). -/
structure TaskModel where
  status : TaskStatus
  statusMessage : String
  results : Option (List Entry) := none
deriving Repr, DecidableEq

/-- Source `TopQueryParams` (part_000 lines 34-42), after the gate's
coercions: `limit` is the result of `Number(limit)` (possibly `NaN`),
the dates are millisecond timestamps, `sort_by` / `retrieve_by` are the
raw strings compared against the enum constants `'contributions'`,
`'rewards'`, `'projects'`, and the two flags are the `getBoolean`-coerced
booleans. -/
structure TopQueryParams where
  limit : JNum
  start_date : Int
  end_date : Int
  sort_by : String
  retrieve_by : String
  include_rewards : Bool
  only_new : Bool
deriving Repr, DecidableEq

/-- Source `CacheableQueryParams` (part_000 lines 44-46). -/
structure CacheableQueryParams extends TopQueryParams where
  cacheId : String
deriving Repr, DecidableEq

/-- The module-level `cache` object (part_000 line 10), threaded
explicitly: an association list from cache id to task. -/
abbrev Cache := List (String × TaskModel)

/-- JS `cache[k]`: the entry for `k`, or `undefined`. -/
def cacheGet (c : Cache) (k : String) : Option TaskModel :=
  (c.find? (fun p => p.1 == k)).map (fun p => p.2)

/-- JS `delete cache[k]`. -/
def cacheDelete (c : Cache) (k : String) : Cache :=
  c.filter (fun p => !(p.1 == k))

/-- JS `cache[k] = t` (overwrite or append). -/
def cacheSet (c : Cache) (k : String) (t : TaskModel) : Cache :=
  if (c.find? (fun p => p.1 == k)).isSome then
    c.map (fun p => if p.1 == k then (k, t) else p)
  else
    c ++ [(k, t)]

/-- Decimal digit characters of a natural number (fuelled structural
recursion; the fuel `n + 1` always suffices). -/
def natDigitsAux : Nat → Nat → List Char
  | 0, _ => []
  | fuel + 1, n =>
    if n < 10 then [Char.ofNat (48 + n)]
    else natDigitsAux fuel (n / 10) ++ [Char.ofNat (48 + n % 10)]

/-- Decimal string of a natural number. -/
def natStr (n : Nat) : String := ⟨natDigitsAux (n + 1) n⟩

/-- Decimal string of an integer. -/
def intStr (i : Int) : String :=
  if i < 0 then "-" ++ natStr i.natAbs else natStr i.natAbs

/-- String form of a boolean, as JSON renders it. -/
def boolStr (b : Bool) : String := if b then "true" else "false"

/-- String form of a possibly-`NaN` number. -/
def jnumStr : JNum → String
  | none => "NaN"
  | some a => intStr a.mant ++ "e-" ++ natStr a.scale

/-- The query fingerprint (part_000 lines 92-94):
`md5(JSON.stringify(query))` rendered as hex.  The hash itself is a host
library call; it is modelled by a deterministic, injective serialization
of the canonical query — every property treated here depends only on the
fingerprint being a pure deterministic function of the canonical query,
never on the hash function. -/
def fingerprint (q : TopQueryParams) : String :=
  jnumStr q.limit ++ "|" ++ intStr q.start_date ++ "|" ++ intStr q.end_date
    ++ "|" ++ q.sort_by ++ "|" ++ q.retrieve_by ++ "|"
    ++ boolStr q.include_rewards ++ "|" ++ boolStr q.only_new

/-- One payload passed to `res.json(...)`: a structured error object, a
task snapshot, or the JS `undefined` value (what `res.json(cache[id])`
receives when the entry was just deleted). -/
inductive ResPayload where
  | errorMsg (msg : String) : ResPayload
  | task (t : TaskModel) : ResPayload
  | undef : ResPayload
deriving Repr, DecidableEq

/-- The raw inputs of `bypassRateLimit` after destructuring defaults and
the date/number coercions of part_000 lines 49-62: `limit` is
`Number(limit)`, the dates are `getTime()` values of the (valid) parsed
dates, `sort_by` / `retrieve_by` are the raw strings, and the two flags
are still uncoerced `JSValue`s (they are coerced by `getBoolean` inside
the gate, lines 63-64). -/
structure RawQuery where
  limit : JNum
  start_date : Int
  end_date : Int
  sort_by : String
  retrieve_by : String
  include_rewards : JSValue
  only_new : JSValue
deriving Repr, DecidableEq

/-- The canonical query object built at part_000 lines 82-90, from the
coerced values. -/
def canonQuery (q : RawQuery) : TopQueryParams :=
  { limit := q.limit
    start_date := q.start_date
    end_date := q.end_date
    sort_by := q.sort_by
    retrieve_by := q.retrieve_by
    include_rewards := getBoolean q.include_rewards
    only_new := getBoolean q.only_new }

/-- Everything observable about one `bypassRateLimit` call:
the `res.json` payloads in order, whether `next()` was called, the cache
after the call, the value stored into `req.query` (set only on the
fall-through path, lines 105-108), and the function's return value
(`true` = the rate limiter is bypassed, `false` = the query goes through
the external rate limiter). -/
structure GateResult where
  res : List ResPayload
  nextCalled : Bool
  cache : Cache
  reqQuery : Option CacheableQueryParams
  ret : Bool
deriving Repr, DecidableEq

/-- Source `bypassRateLimit` (part_000 lines 48-115), as a function of
the pre-call cache and the coerced raw query.  The `try/catch` of lines
59-80 only catches exceptions from the host coercions (which, on the
structured inputs modelled here, do not throw), so it is not modelled. -/
def bypassRateLimit (cache : Cache) (q : RawQuery) : GateResult :=
  let include_rewards := getBoolean q.include_rewards
  if jnumIsNaN q.limit || jnumGtInt q.limit 100 then
    -- lines 66-70: respond with the limit error and return true
    { res := [ResPayload.errorMsg "limit is invalid or too high"]
      nextCalled := false
      cache := cache
      reqQuery := none
      ret := true }
  else
    -- lines 71-76: the date-range check responds but does not return
    let dateErr : List ResPayload :=
      if (include_rewards || q.retrieve_by == "contributions")
          && decide (q.end_date - q.start_date > 8 * 24 * 60 * 60 * 1000) then
        [ResPayload.errorMsg "date range with rewards included must be less than 8 days apart"]
      else []
    let query := canonQuery q
    let cacheId := fingerprint query
    match cacheGet cache cacheId with
    | some cached =>
      -- lines 96-103: on a hit, delete an ERROR entry, then respond with
      -- the *re-read* entry (undefined when it was just deleted)
      let cache1 := if cached.status == TaskStatus.ERROR then cacheDelete cache cacheId else cache
      let payload := match cacheGet cache1 cacheId with
        | some t => ResPayload.task t
        | none => ResPayload.undef
      { res := dateErr ++ [payload]
        nextCalled := false
        cache := cache1
        reqQuery := none
        ret := true }
    | none =>
      -- lines 105-114: publish the cacheable query, then classify
      let reqQuery := some { query with cacheId := cacheId }
      if !include_rewards then
        { res := dateErr, nextCalled := true, cache := cache, reqQuery := reqQuery, ret := true }
      else
        { res := dateErr, nextCalled := false, cache := cache, reqQuery := reqQuery, ret := false }

example : getBoolean (JSValue.str "true") = true := by decide
example : getBoolean (JSValue.str "True") = false := by decide
example : jsParseFloat "1.23 SBD" = some ⟨123, 2⟩ := by decide
example : jsSplitFirst "1.23 SBD" = "1.23" := by decide
example : jsParseFloat (jsSplitFirst "1.23 SBD") = some ⟨123, 2⟩ := by decide
example : jsParseFloat "abc" = none := by decide
example : jnumGtInt (some ⟨150, 0⟩) 100 = true := by decide
example : jnumGtInt none 100 = false := by decide

/-- Modelled from the spec: `aggregateMatch` lives in `./aggregate`
(aggregate.ts), which is not under src/; per the spec the match stage
selects records with creation time in `[start_date, end_date)`, and when
the lower bound is omitted only `created < end_date` is required. -/
def aggregateMatch (lower : Option Int) (upper : Int) (db : List Post) : List Post :=
  db.filter (fun p =>
    (match lower with
     | some l => decide (l ≤ p.created)
     | none => true)
    && decide (p.created < upper))

/-- First-appearance-ordered list of the distinct project identities in a
record list. -/
def projectKeys (ps : List Post) : List String :=
  ps.foldl (fun acc p => if acc.contains p.project then acc else acc ++ [p.project]) []

/-- Modelled from the spec: `aggregateGroup` lives in `./aggregate`
(aggregate.ts), which is not under src/; per the spec the group stage
groups the matched records into ProjectGroups carrying their member
contributions (the optional additive reward projections it can also emit
are never read by the post-processing in part_000, so they are not
modelled). -/
def aggregateGroup (ps : List Post) : List RepoGroup :=
  (projectKeys ps).map (fun pr =>
    { project := pr, posts := some (ps.filter (fun p => p.project == pr)), rewards := none })

/-- Source `postRewards` (part_000 lines 212-218): parse the first
space-delimited token of each payout string with `parseFloat`, clear both
raw fields on the record, and return the sum.  Returned as the mutated
record together with the numeric result.  (A record whose payout field is
already absent would make the source throw a `TypeError`; such records do
not occur in the store and are outside every property treated here.) -/
def postRewards (p : Post) : Post × JNum :=
  let pending := jsParseFloat (jsSplitFirst (p.pending_payout_value.getD ""))
  let paid := jsParseFloat (jsSplitFirst (p.total_payout_value.getD ""))
  ({ p with pending_payout_value := none, total_payout_value := none },
   jnumAdd pending paid)

/-- The numeric value `postRewards` computes for a record. -/
def postRewardsVal (p : Post) : JNum := (postRewards p).2

/-- Group-level rewards accumulation (part_000 lines 150-157): the source
initialises `rewards = 0` and adds `postRewards(post)` for each member. -/
def groupRewardsSum (g : RepoGroup) : JNum :=
  (g.posts.getD []).foldl (fun acc p => jnumAdd acc (postRewardsVal p)) (some (JSNum.ofInt 0))

/-- Whether any member of the group predates `start` (the blacklist test
of part_000 line 152). -/
def groupPredates (start : Int) (g : RepoGroup) : Bool :=
  (g.posts.getD []).any (fun p => decide (p.created < start))

/-- Insert `x` into `l`, after every element `y` with `le y x` — the
insertion step of a stable sort. -/
def insertLe (le : Post → Post → Bool) (x : Post) : List Post → List Post
  | [] => [x]
  | y :: ys => if le y x then y :: insertLe le x ys else x :: y :: ys

/-- Stable sort of records (model of `Array.prototype.sort` with a
consistent comparator; ECMAScript requires the sort to be stable). -/
def sortPosts (le : Post → Post → Bool) (l : List Post) : List Post :=
  l.foldl (fun acc x => insertLe le x acc) []

/-- Insert an `Entry` stably (same scheme as `insertLe`). -/
def insertLeEntry (le : Entry → Entry → Bool) (x : Entry) : List Entry → List Entry
  | [] => [x]
  | y :: ys => if le y x then y :: insertLeEntry le x ys else x :: y :: ys

/-- Stable sort of entries (model of `Array.prototype.sort`). -/
def sortEntries (le : Entry → Entry → Bool) (l : List Entry) : List Entry :=
  l.foldl (fun acc x => insertLeEntry le x acc) []

/-- The by-project post-processing (part_000 lines 145-169): when
`only_new` or `include_rewards`, drop every group with a member predating
`start_date` (only when `only_new`) and store the summed rewards on the
surviving groups (only when `include_rewards`); in every case discard the
member list of every surviving group. -/
def processGroups (params : TopQueryParams) (groups : List RepoGroup) : List RepoGroup :=
  let g1 :=
    if params.only_new || params.include_rewards then
      (groups.filter (fun g => !(params.only_new && groupPredates params.start_date g))).map
        (fun g =>
          if params.include_rewards then { g with rewards := some (groupRewardsSum g) } else g)
    else groups
  g1.map (fun g => { g with posts := none })

/-- The by-contribution post-processing (part_000 lines 170-183): drop
records predating `start_date` when `only_new`; attach `postRewards` when
`include_rewards`; sort by vote count descending when
`sort_by === 'contributions'` (comparator
`b.active_votes.length - a.active_votes.length`). -/
def processPosts (params : TopQueryParams) (data : List Post) : List Post :=
  let d1 := data.filter (fun p => !(params.only_new && decide (p.created < params.start_date)))
  let d2 :=
    if params.include_rewards then
      d1.map (fun p => let pr := postRewards p; { pr.1 with rewards := some pr.2 })
    else d1
  if params.sort_by == "contributions" then
    sortPosts (fun a b => decide (b.active_votes ≤ a.active_votes)) d2
  else d2

/-- The rewards value the global sort comparator reads from an entry
(`b.rewards - a.rewards`); an absent field would make the comparator
return `NaN`, which is modelled as comparing equal. -/
def entryRewards (e : Entry) : JSNum :=
  match e with
  | Entry.repo g => (g.rewards.getD (some (JSNum.ofInt 0))).getD (JSNum.ofInt 0)
  | Entry.post p => (p.rewards.getD (some (JSNum.ofInt 0))).getD (JSNum.ofInt 0)

/-- The aggregation + post-processing of part_000 lines 133-183, as a
function of the query and the Contribution Store's records. -/
def runnerData (params : TopQueryParams) (db : List Post) : List Entry :=
  let matched :=
    aggregateMatch (if params.only_new then none else some params.start_date)
      params.end_date db
  if params.retrieve_by == "projects" then
    (processGroups params (aggregateGroup matched)).map Entry.repo
  else if params.retrieve_by == "contributions" then
    (processPosts params matched).map Entry.post
  else
    matched.map Entry.post

/-- The truncation of part_000 line 189:
`if (data.length > params.limit) data.length = params.limit`.  A `NaN`
limit compares false, so nothing is truncated.  (For a `limit` that is
not a valid array length — negative or fractional — the source throws a
`RangeError`; validated queries carry the integer limits modelled by
`mant / 10 ^ 0`.) -/
def jsTruncate (limit : JNum) (data : List Entry) : List Entry :=
  match limit with
  | none => data
  | some q =>
    if JSNum.ltb q (JSNum.ofInt data.length) then
      data.take (q.mant / (10 : Int) ^ q.scale).toNat
    else data

/-- Lines 133-189: pipeline data, global rewards sort (line 185-187,
only when `include_rewards && sort_by === 'rewards'`), truncation. -/
def runnerResults (params : TopQueryParams) (db : List Post) : List Entry :=
  let data := runnerData params db
  let data1 :=
    if params.include_rewards && params.sort_by == "rewards" then
      sortEntries (fun a b => JSNum.leb (entryRewards b) (entryRewards a)) data
    else data
  jsTruncate params.limit data1

/-- The effect on the Task Store of the eviction callback scheduled at
part_000 lines 193-195.  The callback body is
`delete cached[params.cacheId]`, where `cached` is the local `TaskModel`
object created at line 119 — not the module-level `cache` map: the
delete targets an own property of the task object (it is a no-op there,
the task has no such property), so the store itself is left unchanged
for every key. -/
def evictionCallbackCache (cache : Cache) (_cacheId : String) : Cache := cache

/-- Modelled from the spec: the eviction the Task Store is specified to
perform when the scheduled delay elapses — removal of the fingerprint's
entry (`delete cache[cacheId]`). -/
def specEvictionCallback (cache : Cache) (cacheId : String) : Cache :=
  cacheDelete cache cacheId

/-- One invocation of the Reward Enrichment collaborator
(`updateRewards(start, end, limiter?)`, part_000 line 130). -/
structure RewardCall where
  start_date : Int
  end_date : Int
  limiter : Option JNum
deriving Repr, DecidableEq

/-- Everything observable about one successful `top` run: the cache
right after admission (IN_PROGRESS published), the snapshot sent to the
caller, the Reward Enrichment calls made, the lower bound passed to the
match stage, the terminal task, the cache after finalization, the
scheduled eviction delay in milliseconds, and the cache after the
eviction timer has fired. -/
structure RunnerResult where
  initialCache : Cache
  initialResponse : TaskModel
  rewardCalls : List RewardCall
  matchLower : Option Int
  finalTask : TaskModel
  finalCache : Cache
  evictionDelayMs : Int
  cacheAfterEviction : Cache
deriving Repr, DecidableEq

/-- Source `top` (part_000 lines 117-201) on the success path, as a
function of the pre-call cache, the published query and the Contribution
Store's records.  (The `catch` branch, which finalizes to ERROR, is
exercised only by collaborator failures; the properties treated here
quantify over the store's contents instead.) -/
def top (cache0 : Cache) (params : CacheableQueryParams) (db : List Post) : RunnerResult :=
  let inProgress : TaskModel :=
    { status := TaskStatus.IN_PROGRESS, statusMessage := "IN_PROGRESS", results := none }
  let cache1 := cacheSet cache0 params.cacheId inProgress
  let calls : List RewardCall :=
    if params.include_rewards || params.retrieve_by == "contributions" then
      [{ start_date := params.start_date
         end_date := params.end_date
         limiter :=
           if params.retrieve_by == "projects" && params.sort_by == "contributions" then
             some params.limit
           else none }]
    else []
  let results := runnerResults params.toTopQueryParams db
  let finalTask : TaskModel :=
    { status := TaskStatus.SUCCESS, statusMessage := "SUCCESS", results := some results }
  let cache2 := cacheSet cache1 params.cacheId finalTask
  { initialCache := cache1
    initialResponse := inProgress
    rewardCalls := calls
    matchLower := if params.only_new then none else some params.start_date
    finalTask := finalTask
    finalCache := cache2
    evictionDelayMs := if params.include_rewards then 1000 * 60 * 60 * 12 else 1000 * 60 * 5
    cacheAfterEviction := evictionCallbackCache cache2 params.cacheId }

theorem mem_insertLeEntry (le : Entry → Entry → Bool) (x a : Entry) (l : List Entry) :
    a ∈ insertLeEntry le x l ↔ a = x ∨ a ∈ l := by
  induction l with
  | nil => simp [insertLeEntry]
  | cons y ys ih =>
    by_cases h : le y x = true
    · simp only [insertLeEntry, h, if_true, List.mem_cons, ih]
      tauto
    · simp only [insertLeEntry, h, if_false, Bool.false_eq_true, List.mem_cons]

theorem mem_sortEntries_aux (le : Entry → Entry → Bool) (l acc : List Entry) (a : Entry) :
    a ∈ l.foldl (fun acc x => insertLeEntry le x acc) acc ↔ a ∈ acc ∨ a ∈ l := by
  induction l generalizing acc with
  | nil => simp
  | cons y ys ih =>
    simp only [List.foldl_cons, ih, mem_insertLeEntry, List.mem_cons]
    tauto

theorem mem_sortEntries (le : Entry → Entry → Bool) (l : List Entry) (a : Entry) :
    a ∈ sortEntries le l ↔ a ∈ l := by
  simp [sortEntries, mem_sortEntries_aux]

theorem mem_insertLe (le : Post → Post → Bool) (x a : Post) (l : List Post) :
    a ∈ insertLe le x l ↔ a = x ∨ a ∈ l := by
  induction l with
  | nil => simp [insertLe]
  | cons y ys ih =>
    by_cases h : le y x = true
    · simp only [insertLe, h, if_true, List.mem_cons, ih]
      tauto
    · simp only [insertLe, h, if_false, Bool.false_eq_true, List.mem_cons]

theorem mem_sortPosts_aux (le : Post → Post → Bool) (l acc : List Post) (a : Post) :
    a ∈ l.foldl (fun acc x => insertLe le x acc) acc ↔ a ∈ acc ∨ a ∈ l := by
  induction l generalizing acc with
  | nil => simp
  | cons y ys ih =>
    simp only [List.foldl_cons, ih, mem_insertLe, List.mem_cons]
    tauto

theorem mem_sortPosts (le : Post → Post → Bool) (l : List Post) (a : Post) :
    a ∈ sortPosts le l ↔ a ∈ l := by
  simp [sortPosts, mem_sortPosts_aux]

theorem mem_jsTruncate (limit : JNum) (data : List Entry) (a : Entry)
    (h : a ∈ jsTruncate limit data) : a ∈ data := by
  unfold jsTruncate at h
  match limit with
  | none => exact h
  | some q =>
    simp only at h
    split at h
    · exact List.take_subset _ _ h
    · exact h

theorem gate_limit_bad (cache : Cache) (q : RawQuery)
    (h : (jnumIsNaN q.limit || jnumGtInt q.limit 100) = true) :
    bypassRateLimit cache q =
      { res := [ResPayload.errorMsg "limit is invalid or too high"]
        nextCalled := false
        cache := cache
        reqQuery := none
        ret := true } := by
  unfold bypassRateLimit
  simp [h]

/-- C10: `getBoolean` yields `true` exactly for the boolean `true` and
the exact string `'true'`; `'True'`, `'TRUE'`, `'1'`, the number `1` and
`'yes'` all coerce to `false` rather than being rejected, and the gate
treats a query carrying such an `include_rewards` (or `only_new`) value
identically to one carrying `false` — a cheap, reward-free query. -/
theorem getBoolean_strict_coercion :
    (∀ v : JSValue, getBoolean v = true ↔ (v = JSValue.bool true ∨ v = JSValue.str "true")) ∧
    getBoolean (JSValue.str "True") = false ∧
    getBoolean (JSValue.str "TRUE") = false ∧
    getBoolean (JSValue.str "1") = false ∧
    getBoolean (JSValue.num 1 0) = false ∧
    getBoolean (JSValue.str "yes") = false ∧
    (∀ (cache : Cache) (q : RawQuery),
      bypassRateLimit cache { q with include_rewards := JSValue.str "1" } =
        bypassRateLimit cache { q with include_rewards := JSValue.bool false }) ∧
    (∀ (cache : Cache) (q : RawQuery),
      bypassRateLimit cache { q with only_new := JSValue.str "yes" } =
        bypassRateLimit cache { q with only_new := JSValue.bool false }) := by
  refine ⟨?_, by decide, by decide, by decide, by decide, by decide, ?_, ?_⟩
  · intro v
    cases v <;> simp [getBoolean]
  · intro cache q
    rfl
  · intro cache q
    rfl

/-- C6: when the coerced `limit` is `NaN` or exceeds 100, the gate
responds with exactly the payload
`{error: 'limit is invalid or too high'}` and stops: `next()` is not
called, nothing is written into `req.query`, the cache is untouched (no
fingerprint entry is created), and the function returns `true`. -/
theorem limit_error_stops (cache : Cache) (q : RawQuery)
    (h : (jnumIsNaN q.limit || jnumGtInt q.limit 100) = true) :
    bypassRateLimit cache q =
      { res := [ResPayload.errorMsg "limit is invalid or too high"]
        nextCalled := false
        cache := cache
        reqQuery := none
        ret := true } :=
  gate_limit_bad cache q h

theorem limit_error_stops_witness :
    (jnumIsNaN (some (JSNum.mk 150 0)) || jnumGtInt (some (JSNum.mk 150 0)) 100) = true ∧
    bypassRateLimit []
        { limit := some (JSNum.mk 150 0), start_date := 0, end_date := 0
          sort_by := "contributions", retrieve_by := "projects"
          include_rewards := JSValue.bool false, only_new := JSValue.bool false } =
      { res := [ResPayload.errorMsg "limit is invalid or too high"]
        nextCalled := false
        cache := []
        reqQuery := none
        ret := true } :=
  ⟨by decide,
   limit_error_stops []
     { limit := some (JSNum.mk 150 0), start_date := 0, end_date := 0
       sort_by := "contributions", retrieve_by := "projects"
       include_rewards := JSValue.bool false, only_new := JSValue.bool false }
     (by decide)⟩

/-- C5, counterexample: a query with `limit = 0` passes the gate's
validation — no error payload is emitted, the fingerprint is published
into `req.query` and `next()` is called — although `0 < 1`, so the
claimed invariant `1 ≤ limit` does not hold for admitted queries. -/
theorem limit_lower_bound_cex :
    (bypassRateLimit []
        { limit := some (JSNum.mk 0 0), start_date := 0, end_date := 0
          sort_by := "contributions", retrieve_by := "projects"
          include_rewards := JSValue.bool false, only_new := JSValue.bool false }).res = [] ∧
    (bypassRateLimit []
        { limit := some (JSNum.mk 0 0), start_date := 0, end_date := 0
          sort_by := "contributions", retrieve_by := "projects"
          include_rewards := JSValue.bool false, only_new := JSValue.bool false }).nextCalled
      = true ∧
    (bypassRateLimit []
        { limit := some (JSNum.mk 0 0), start_date := 0, end_date := 0
          sort_by := "contributions", retrieve_by := "projects"
          include_rewards := JSValue.bool false, only_new := JSValue.bool false }).reqQuery.isSome
      = true ∧
    JSNum.ltb (JSNum.mk 0 0) (JSNum.ofInt 1) = true := by
  refine ⟨?_, ?_, ?_, by decide⟩ <;> rfl

/-- C5, amended: every query that passes the gate's `limit` validation
has a numeric (non-`NaN`) limit that does not exceed 100; neither a lower
bound of 1 nor integrality is enforced. -/
theorem limit_validation_sound (cache : Cache) (q : RawQuery)
    (h : ResPayload.errorMsg "limit is invalid or too high" ∉ (bypassRateLimit cache q).res) :
    q.limit.isSome = true ∧
    ∀ a : JSNum, q.limit = some a → JSNum.ltb (JSNum.ofInt 100) a = false := by
  by_cases hv : (jnumIsNaN q.limit || jnumGtInt q.limit 100) = true
  · exfalso
    rw [gate_limit_bad cache q hv] at h
    simp at h
  · have hv' := eq_false_of_ne_true hv
    simp only [Bool.or_eq_false_iff] at hv'
    obtain ⟨h1, h2⟩ := hv'
    constructor
    · simpa [jnumIsNaN, Option.isNone_iff_eq_none, Option.isSome_iff_ne_none] using h1
    · intro a ha
      rw [ha] at h2
      simpa [jnumGtInt] using h2

theorem limit_validation_sound_witness :
    (ResPayload.errorMsg "limit is invalid or too high" ∉
      (bypassRateLimit []
        { limit := some (JSNum.mk 50 0), start_date := 0, end_date := 0
          sort_by := "contributions", retrieve_by := "projects"
          include_rewards := JSValue.bool false, only_new := JSValue.bool false }).res) ∧
    ((some (JSNum.mk 50 0) : JNum).isSome = true ∧
      ∀ a : JSNum, (some (JSNum.mk 50 0) : JNum) = some a →
        JSNum.ltb (JSNum.ofInt 100) a = false) := by
  constructor
  · decide
  · exact limit_validation_sound []
      { limit := some (JSNum.mk 50 0), start_date := 0, end_date := 0
        sort_by := "contributions", retrieve_by := "projects"
        include_rewards := JSValue.bool false, only_new := JSValue.bool false }
      (by decide)

/-- C3, counterexample: a cache-miss query with `include_rewards = false`
and `retrieve_by = 'contributions'` — expensive according to the claim —
nevertheless bypasses the external rate limiter: the gate calls `next()`
and returns `true` (bypass), not `false` (subject to the limiter). -/
theorem rate_limiter_cex :
    (cacheGet []
      (fingerprint (canonQuery
        { limit := some (JSNum.mk 5 0), start_date := 0, end_date := 0
          sort_by := "contributions", retrieve_by := "contributions"
          include_rewards := JSValue.bool false, only_new := JSValue.bool false }))).isNone
      = true ∧
    (bypassRateLimit []
      { limit := some (JSNum.mk 5 0), start_date := 0, end_date := 0
        sort_by := "contributions", retrieve_by := "contributions"
        include_rewards := JSValue.bool false, only_new := JSValue.bool false }).ret = true ∧
    (bypassRateLimit []
      { limit := some (JSNum.mk 5 0), start_date := 0, end_date := 0
        sort_by := "contributions", retrieve_by := "contributions"
        include_rewards := JSValue.bool false, only_new := JSValue.bool false }).nextCalled
      = true := by
  refine ⟨rfl, ?_, ?_⟩ <;> rfl

/-- C3, amended: on a cache miss that passed the `limit` validation, the
query is subject to the external rate limiter (the gate returns `false`)
if and only if `include_rewards` coerces to `true`; every query without
`include_rewards` — including `retrieve_by = 'contributions'` ones —
bypasses the limiter unconditionally (`next()` is called and the gate
returns `true`). -/
theorem rate_limiter_iff_include_rewards (cache : Cache) (q : RawQuery)
    (hv : (jnumIsNaN q.limit || jnumGtInt q.limit 100) = false)
    (hm : cacheGet cache (fingerprint (canonQuery q)) = none) :
    ((bypassRateLimit cache q).ret = false ↔ getBoolean q.include_rewards = true) ∧
    ((bypassRateLimit cache q).nextCalled = true ↔ getBoolean q.include_rewards = false) := by
  unfold bypassRateLimit
  simp only [hv, hm, Bool.false_eq_true, if_false]
  by_cases hb : getBoolean q.include_rewards = true <;> simp [hb]

theorem rate_limiter_iff_include_rewards_witness :
    ((jnumIsNaN (some (JSNum.mk 5 0)) || jnumGtInt (some (JSNum.mk 5 0)) 100) = false ∧
      cacheGet []
        (fingerprint (canonQuery
          { limit := some (JSNum.mk 5 0), start_date := 0, end_date := 0
            sort_by := "contributions", retrieve_by := "contributions"
            include_rewards := JSValue.bool true, only_new := JSValue.bool false })) = none) ∧
    (((bypassRateLimit []
        { limit := some (JSNum.mk 5 0), start_date := 0, end_date := 0
          sort_by := "contributions", retrieve_by := "contributions"
          include_rewards := JSValue.bool true, only_new := JSValue.bool false }).ret = false ↔
        getBoolean (JSValue.bool true) = true) ∧
      ((bypassRateLimit []
        { limit := some (JSNum.mk 5 0), start_date := 0, end_date := 0
          sort_by := "contributions", retrieve_by := "contributions"
          include_rewards := JSValue.bool true, only_new := JSValue.bool false }).nextCalled = true ↔
        getBoolean (JSValue.bool true) = false)) := by
  constructor
  · exact ⟨by decide, rfl⟩
  · exact rate_limiter_iff_include_rewards []
      { limit := some (JSNum.mk 5 0), start_date := 0, end_date := 0
        sort_by := "contributions", retrieve_by := "contributions"
        include_rewards := JSValue.bool true, only_new := JSValue.bool false }
      (by decide) rfl

/-- C4: when the query needs reward data or contribution granularity and
its span exceeds 8 days (and the `limit` validation passed), the gate
emits `{error: 'date range with rewards included must be less than 8
days apart'}` as its first response payload but does not halt: the
fingerprint is still computed — on a cache miss the fingerprinted query
is published into `req.query`, and on a cache hit the cached snapshot is
still emitted as a second payload. -/
theorem date_range_error_is_advisory (cache : Cache) (q : RawQuery)
    (hv : (jnumIsNaN q.limit || jnumGtInt q.limit 100) = false)
    (hx : (getBoolean q.include_rewards || q.retrieve_by == "contributions") = true)
    (hd : q.end_date - q.start_date > 8 * 24 * 60 * 60 * 1000) :
    (bypassRateLimit cache q).res.head? =
      some (ResPayload.errorMsg
        "date range with rewards included must be less than 8 days apart") ∧
    (cacheGet cache (fingerprint (canonQuery q)) = none →
      (bypassRateLimit cache q).reqQuery =
        some { canonQuery q with cacheId := fingerprint (canonQuery q) }) ∧
    (∀ t : TaskModel, cacheGet cache (fingerprint (canonQuery q)) = some t →
      (bypassRateLimit cache q).res.length = 2) := by
  have hd' : decide (q.end_date - q.start_date > 8 * 24 * 60 * 60 * 1000) = true :=
    decide_eq_true hd
  unfold bypassRateLimit
  simp only [hv, Bool.false_eq_true, if_false, hx, hd', Bool.and_self, if_true]
  refine ⟨?_, ?_, ?_⟩
  · cases hmc : cacheGet cache (fingerprint (canonQuery q)) <;> simp [hmc]
    split <;> simp
  · intro hmc
    simp [hmc]
    split <;> rfl
  · intro t hmc
    simp [hmc]

theorem date_range_error_is_advisory_witness :
    ((jnumIsNaN (some (JSNum.mk 5 0)) || jnumGtInt (some (JSNum.mk 5 0)) 100) = false ∧
      (getBoolean (JSValue.bool true) || ("projects" == "contributions")) = true ∧
      (691200001 : Int) - 0 > 8 * 24 * 60 * 60 * 1000) ∧
    ((bypassRateLimit []
        { limit := some (JSNum.mk 5 0), start_date := 0, end_date := 691200001
          sort_by := "contributions", retrieve_by := "projects"
          include_rewards := JSValue.bool true, only_new := JSValue.bool false }).res.head? =
      some (ResPayload.errorMsg
        "date range with rewards included must be less than 8 days apart") ∧
     (cacheGet []
        (fingerprint (canonQuery
          { limit := some (JSNum.mk 5 0), start_date := 0, end_date := 691200001
            sort_by := "contributions", retrieve_by := "projects"
            include_rewards := JSValue.bool true, only_new := JSValue.bool false })) = none →
       (bypassRateLimit []
          { limit := some (JSNum.mk 5 0), start_date := 0, end_date := 691200001
            sort_by := "contributions", retrieve_by := "projects"
            include_rewards := JSValue.bool true, only_new := JSValue.bool false }).reqQuery =
         some { canonQuery
             { limit := some (JSNum.mk 5 0), start_date := 0, end_date := 691200001
               sort_by := "contributions", retrieve_by := "projects"
               include_rewards := JSValue.bool true, only_new := JSValue.bool false } with
           cacheId := fingerprint (canonQuery
             { limit := some (JSNum.mk 5 0), start_date := 0, end_date := 691200001
               sort_by := "contributions", retrieve_by := "projects"
               include_rewards := JSValue.bool true, only_new := JSValue.bool false }) }) ∧
     (∀ t : TaskModel,
        cacheGet []
          (fingerprint (canonQuery
            { limit := some (JSNum.mk 5 0), start_date := 0, end_date := 691200001
              sort_by := "contributions", retrieve_by := "projects"
              include_rewards := JSValue.bool true, only_new := JSValue.bool false })) = some t →
        (bypassRateLimit []
          { limit := some (JSNum.mk 5 0), start_date := 0, end_date := 691200001
            sort_by := "contributions", retrieve_by := "projects"
            include_rewards := JSValue.bool true, only_new := JSValue.bool false }).res.length
          = 2)) := by
  constructor
  · exact ⟨by decide, by decide, by decide⟩
  · exact date_range_error_is_advisory []
      { limit := some (JSNum.mk 5 0), start_date := 0, end_date := 691200001
        sort_by := "contributions", retrieve_by := "projects"
        include_rewards := JSValue.bool true, only_new := JSValue.bool false }
      (by decide) (by decide) (by decide)

/-- C2: on a hit whose entry is in ERROR state the gate does remove the
entry from the store, but it then responds with the *re-read* store slot
— `res.json(cache[cacheId])` after `delete cache[cacheId]` — which is
the JS `undefined` value, not the stale ERROR snapshot the local
`cached` variable (saved and never used) was meant to carry.  Evaluated
at a one-entry store holding an ERROR task under the query's own
fingerprint. -/
theorem error_hit_responds_undefined :
    cacheGet
        [(fingerprint (canonQuery
            { limit := some (JSNum.mk 5 0), start_date := 0, end_date := 0
              sort_by := "contributions", retrieve_by := "projects"
              include_rewards := JSValue.bool false, only_new := JSValue.bool false }),
          { status := TaskStatus.ERROR, statusMessage := "boom", results := none })]
        (fingerprint (canonQuery
          { limit := some (JSNum.mk 5 0), start_date := 0, end_date := 0
            sort_by := "contributions", retrieve_by := "projects"
            include_rewards := JSValue.bool false, only_new := JSValue.bool false })) =
      some { status := TaskStatus.ERROR, statusMessage := "boom", results := none } ∧
    (bypassRateLimit
        [(fingerprint (canonQuery
            { limit := some (JSNum.mk 5 0), start_date := 0, end_date := 0
              sort_by := "contributions", retrieve_by := "projects"
              include_rewards := JSValue.bool false, only_new := JSValue.bool false }),
          { status := TaskStatus.ERROR, statusMessage := "boom", results := none })]
        { limit := some (JSNum.mk 5 0), start_date := 0, end_date := 0
          sort_by := "contributions", retrieve_by := "projects"
          include_rewards := JSValue.bool false, only_new := JSValue.bool false }).cache = [] ∧
    (bypassRateLimit
        [(fingerprint (canonQuery
            { limit := some (JSNum.mk 5 0), start_date := 0, end_date := 0
              sort_by := "contributions", retrieve_by := "projects"
              include_rewards := JSValue.bool false, only_new := JSValue.bool false }),
          { status := TaskStatus.ERROR, statusMessage := "boom", results := none })]
        { limit := some (JSNum.mk 5 0), start_date := 0, end_date := 0
          sort_by := "contributions", retrieve_by := "projects"
          include_rewards := JSValue.bool false, only_new := JSValue.bool false }).res =
      [ResPayload.undef] ∧
    (bypassRateLimit
        [(fingerprint (canonQuery
            { limit := some (JSNum.mk 5 0), start_date := 0, end_date := 0
              sort_by := "contributions", retrieve_by := "projects"
              include_rewards := JSValue.bool false, only_new := JSValue.bool false }),
          { status := TaskStatus.ERROR, statusMessage := "boom", results := none })]
        { limit := some (JSNum.mk 5 0), start_date := 0, end_date := 0
          sort_by := "contributions", retrieve_by := "projects"
          include_rewards := JSValue.bool false, only_new := JSValue.bool false }).ret = true := by
  refine ⟨?_, ?_, ?_, ?_⟩ <;> rfl

/-- C1: the eviction timer scheduled at finalize never removes the cache
entry — its callback is `delete cached[params.cacheId]`, which targets
the task object, not the `cache` map.  Evaluated at a concrete
`include_rewards = true` run: the task finalizes to SUCCESS, the
scheduled delay is the 12 simulated hours (43 200 000 ms), yet after the
timer fires the entry is still retrievable, where the specified eviction
(`specEvictionCallback`) would have removed it. -/
theorem eviction_never_removes_entry :
    (top []
        { limit := some (JSNum.mk 5 0), start_date := 0, end_date := 100
          sort_by := "rewards", retrieve_by := "projects"
          include_rewards := true, only_new := false, cacheId := "k" }
        [{ project := "A", created := 10, active_votes := 3
           pending_payout_value := some "1.5 SBD"
           total_payout_value := some "2.5 SBD", rewards := none }]).finalTask.status =
      TaskStatus.SUCCESS ∧
    (top []
        { limit := some (JSNum.mk 5 0), start_date := 0, end_date := 100
          sort_by := "rewards", retrieve_by := "projects"
          include_rewards := true, only_new := false, cacheId := "k" }
        [{ project := "A", created := 10, active_votes := 3
           pending_payout_value := some "1.5 SBD"
           total_payout_value := some "2.5 SBD", rewards := none }]).evictionDelayMs =
      43200000 ∧
    cacheGet
        (top []
          { limit := some (JSNum.mk 5 0), start_date := 0, end_date := 100
            sort_by := "rewards", retrieve_by := "projects"
            include_rewards := true, only_new := false, cacheId := "k" }
          [{ project := "A", created := 10, active_votes := 3
             pending_payout_value := some "1.5 SBD"
             total_payout_value := some "2.5 SBD", rewards := none }]).cacheAfterEviction "k" =
      some (top []
          { limit := some (JSNum.mk 5 0), start_date := 0, end_date := 100
            sort_by := "rewards", retrieve_by := "projects"
            include_rewards := true, only_new := false, cacheId := "k" }
          [{ project := "A", created := 10, active_votes := 3
             pending_payout_value := some "1.5 SBD"
             total_payout_value := some "2.5 SBD", rewards := none }]).finalTask ∧
    cacheGet
        (specEvictionCallback
          (top []
            { limit := some (JSNum.mk 5 0), start_date := 0, end_date := 100
              sort_by := "rewards", retrieve_by := "projects"
              include_rewards := true, only_new := false, cacheId := "k" }
            [{ project := "A", created := 10, active_votes := 3
               pending_payout_value := some "1.5 SBD"
               total_payout_value := some "2.5 SBD", rewards := none }]).finalCache "k") "k" =
      none := by
  refine ⟨?_, ?_, ?_, ?_⟩ <;> rfl

/-- C8: the runner invokes Reward Enrichment exactly when
`include_rewards` or `retrieve_by = 'contributions'`; every invocation
covers `[start_date, end_date]`, carries the numeric cap `limit`
precisely when `retrieve_by = 'projects'` and
`sort_by = 'contributions'`, and carries no cap otherwise. -/
theorem reward_enrichment_invocation (cache0 : Cache) (params : CacheableQueryParams)
    (db : List Post) :
    ((top cache0 params db).rewardCalls ≠ [] ↔
      (params.include_rewards = true ∨ params.retrieve_by = "contributions")) ∧
    (∀ c ∈ (top cache0 params db).rewardCalls,
      c.start_date = params.start_date ∧
      c.end_date = params.end_date ∧
      (c.limiter = some params.limit ↔
        (params.retrieve_by = "projects" ∧ params.sort_by = "contributions")) ∧
      (¬(params.retrieve_by = "projects" ∧ params.sort_by = "contributions") →
        c.limiter = none)) := by
  unfold top
  simp only
  constructor
  · cases h : (params.include_rewards || params.retrieve_by == "contributions") with
    | true =>
      simp only [h, if_true, ne_eq, List.cons_ne_nil, not_false_eq_true, true_iff]
      rcases Bool.or_eq_true_iff.mp h with h1 | h1
      · exact Or.inl h1
      · exact Or.inr (by simpa using h1)
    | false =>
      have h2 := h
      rw [Bool.or_eq_false_iff] at h2
      simp only [h, Bool.false_eq_true, if_false]
      constructor
      · intro hne
        exact absurd rfl hne
      · intro hor
        exfalso
        rcases hor with h1 | h1
        · rw [h2.1] at h1
          cases h1
        · have h3 := h2.2
          rw [h1] at h3
          simp at h3
  · intro c hc
    cases h : (params.include_rewards || params.retrieve_by == "contributions") with
    | true =>
      simp only [h, if_true, List.mem_singleton] at hc
      subst hc
      refine ⟨rfl, rfl, ?_, ?_⟩
      · cases hl : (params.retrieve_by == "projects" && params.sort_by == "contributions") with
        | true =>
          simp only [hl, if_true, Option.some.injEq, true_iff]
          simp only [Bool.and_eq_true, beq_iff_eq] at hl
          exact hl
        | false =>
          have hl2 := hl
          rw [Bool.and_eq_false_iff] at hl2
          simp only [hl, Bool.false_eq_true, if_false]
          constructor
          · intro hfalse
            cases hfalse
          · intro hand
            exfalso
            rcases hl2 with h3 | h3
            · rw [hand.1] at h3
              simp at h3
            · rw [hand.2] at h3
              simp at h3
      · intro hn
        cases hl : (params.retrieve_by == "projects" && params.sort_by == "contributions") with
        | true =>
          exfalso
          simp only [Bool.and_eq_true, beq_iff_eq] at hl
          exact hn hl
        | false =>
          simp [hl]
    | false =>
      simp only [h, Bool.false_eq_true, if_false] at hc
      cases hc

theorem reward_enrichment_invocation_witness :
    (RewardCall.mk 1 2 (some (some (JSNum.mk 7 0)))) ∈
      (top []
        { limit := some (JSNum.mk 7 0), start_date := 1, end_date := 2
          sort_by := "contributions", retrieve_by := "projects"
          include_rewards := true, only_new := false, cacheId := "k" } []).rewardCalls ∧
    ((RewardCall.mk 1 2 (some (some (JSNum.mk 7 0)))).start_date = 1 ∧
      (RewardCall.mk 1 2 (some (some (JSNum.mk 7 0)))).end_date = 2 ∧
      ((RewardCall.mk 1 2 (some (some (JSNum.mk 7 0)))).limiter =
          some (some (JSNum.mk 7 0)) ↔
        (("projects" : String) = "projects" ∧ ("contributions" : String) = "contributions")) ∧
      (¬(("projects" : String) = "projects" ∧ ("contributions" : String) = "contributions") →
        (RewardCall.mk 1 2 (some (some (JSNum.mk 7 0)))).limiter = none)) := by
  constructor
  · decide
  · exact (reward_enrichment_invocation []
      { limit := some (JSNum.mk 7 0), start_date := 1, end_date := 2
        sort_by := "contributions", retrieve_by := "projects"
        include_rewards := true, only_new := false, cacheId := "k" } []).2
      (RewardCall.mk 1 2 (some (some (JSNum.mk 7 0)))) (by decide)

/-- C9: for a record carrying both payout strings, `postRewards` returns
the parsed first space-delimited token of the pending payout plus the
parsed first token of the paid payout, and the returned record has both
raw payout fields cleared; moreover every record leaving the
by-contribution pipeline with `include_rewards = true` has both raw
payout fields absent. -/
theorem postRewards_sum_and_clear (p : Post) (sp st : String)
    (hp : p.pending_payout_value = some sp) (ht : p.total_payout_value = some st) :
    postRewards p =
      ({ p with pending_payout_value := none, total_payout_value := none },
        jnumAdd (jsParseFloat (jsSplitFirst sp)) (jsParseFloat (jsSplitFirst st))) ∧
    (postRewards p).1.pending_payout_value = none ∧
    (postRewards p).1.total_payout_value = none ∧
    (∀ (params : TopQueryParams) (data : List Post), params.include_rewards = true →
      ∀ q ∈ processPosts params data,
        q.pending_payout_value = none ∧ q.total_payout_value = none) := by
  refine ⟨?_, rfl, rfl, ?_⟩
  · unfold postRewards
    rw [hp, ht]
    rfl
  · intro params data hir q hq
    unfold processPosts at hq
    simp only [hir, if_true] at hq
    by_cases hs : (params.sort_by == "contributions") = true
    · simp only [hs, if_true] at hq
      rw [mem_sortPosts] at hq
      rcases List.mem_map.mp hq with ⟨r, _, hr2⟩
      rw [← hr2]
      exact ⟨rfl, rfl⟩
    · simp only [hs, Bool.false_eq_true, if_false] at hq
      rcases List.mem_map.mp hq with ⟨r, _, hr2⟩
      rw [← hr2]
      exact ⟨rfl, rfl⟩

theorem postRewards_sum_and_clear_witness :
    ((Post.mk "A" 0 0 (some "1.5 SBD") (some "2.25 SBD") none).pending_payout_value =
        some "1.5 SBD" ∧
      (Post.mk "A" 0 0 (some "1.5 SBD") (some "2.25 SBD") none).total_payout_value =
        some "2.25 SBD") ∧
    postRewards (Post.mk "A" 0 0 (some "1.5 SBD") (some "2.25 SBD") none) =
      (Post.mk "A" 0 0 none none none,
        jnumAdd (jsParseFloat (jsSplitFirst "1.5 SBD"))
          (jsParseFloat (jsSplitFirst "2.25 SBD"))) ∧
    jnumAdd (jsParseFloat (jsSplitFirst "1.5 SBD")) (jsParseFloat (jsSplitFirst "2.25 SBD")) =
      some (JSNum.mk 3750 3) := by
  refine ⟨⟨rfl, rfl⟩, ?_, by decide⟩
  exact ((postRewards_sum_and_clear
    (Post.mk "A" 0 0 (some "1.5 SBD") (some "2.25 SBD") none)
    "1.5 SBD" "2.25 SBD" rfl rfl).1)

theorem mem_processGroups_only_new (params : TopQueryParams) (groups : List RepoGroup)
    (honly : params.only_new = true) (g : RepoGroup) (hg : g ∈ processGroups params groups) :
    g.posts = none ∧
    ∃ g', g' ∈ groups ∧ g.project = g'.project ∧
      groupPredates params.start_date g' = false := by
  unfold processGroups at hg
  simp only [honly, Bool.true_or, if_true] at hg
  rcases List.mem_map.mp hg with ⟨g2, hg2, hgeq⟩
  rcases List.mem_map.mp hg2 with ⟨g1, hg1, hg1eq⟩
  rw [List.mem_filter] at hg1
  obtain ⟨hg1mem, hg1cond⟩ := hg1
  refine ⟨by rw [← hgeq], g1, hg1mem, ?_, ?_⟩
  · rw [← hgeq, ← hg1eq]
    by_cases hir : params.include_rewards = true <;> simp [hir]
  · simp only [honly, Bool.true_and, Bool.not_eq_true'] at hg1cond
    exact hg1cond

theorem aggregateGroup_posts (ps : List Post) (g : RepoGroup) (hg : g ∈ aggregateGroup ps) :
    g.posts = some (ps.filter (fun p => p.project == g.project)) := by
  unfold aggregateGroup at hg
  rcases List.mem_map.mp hg with ⟨pr, _, hgeq⟩
  rw [← hgeq]

/-- C7: for a `retrieve_by = 'projects'`, `only_new = true` query, the
match stage is built with no lower date bound, and a project is entirely
absent from the results whenever some member record (created before
`end_date`, hence grouped) predates `start_date`; every surviving group
leaves the pipeline with its member list discarded (`posts` absent). -/
theorem only_new_projects_excludes (cache0 : Cache) (params : CacheableQueryParams)
    (db : List Post) (pr : String) (mp : Post)
    (hretr : params.retrieve_by = "projects") (honly : params.only_new = true)
    (hmem : mp ∈ db) (hproj : mp.project = pr)
    (hupper : mp.created < params.end_date) (hpred : mp.created < params.start_date) :
    (top cache0 params db).matchLower = none ∧
    (∀ g : RepoGroup,
      Entry.repo g ∈ ((top cache0 params db).finalTask.results.getD []) →
        g.posts = none ∧ g.project ≠ pr) := by
  constructor
  · simp [top, honly]
  · intro g hg
    have hg' : Entry.repo g ∈ runnerResults params.toTopQueryParams db := by
      simpa [top] using hg
    unfold runnerResults at hg'
    simp only at hg'
    have hg1 := mem_jsTruncate _ _ _ hg'
    have hg2 : Entry.repo g ∈ runnerData params.toTopQueryParams db := by
      by_cases hs :
          (params.include_rewards && params.sort_by == "rewards") = true
      · rw [if_pos hs, mem_sortEntries] at hg1
        exact hg1
      · rwa [if_neg hs] at hg1
    unfold runnerData at hg2
    simp only [hretr, beq_self_eq_true, if_true, honly, if_pos] at hg2
    rcases List.mem_map.mp hg2 with ⟨g0, hg0, hg0eq⟩
    have hg0' : g = g0 := by
      cases hg0eq
      rfl
    subst hg0'
    have hpg := mem_processGroups_only_new params.toTopQueryParams _ honly g hg0
    rcases hpg with ⟨hposts, g', hg'mem, hgproj, hgpred⟩
    refine ⟨hposts, ?_⟩
    intro hgpr
    have hg'pr : g'.project = pr := by
      rw [← hgproj]
      exact hgpr
    have hp' := aggregateGroup_posts _ _ hg'mem
    have hmpm : mp ∈ aggregateMatch none params.end_date db := by
      unfold aggregateMatch
      rw [List.mem_filter]
      exact ⟨hmem, by simp [hupper]⟩
    have hany : groupPredates params.start_date g' = true := by
      unfold groupPredates
      rw [hp']
      simp only [Option.getD_some]
      rw [List.any_eq_true]
      refine ⟨mp, ?_, by simp [hpred]⟩
      rw [List.mem_filter]
      refine ⟨hmpm, ?_⟩
      rw [hg'pr]
      simp [hproj]
    rw [hany] at hgpred
    cases hgpred

theorem only_new_projects_excludes_witness :
    ((Post.mk "A" 5 1 none none none) ∈
        [Post.mk "A" 5 1 none none none, Post.mk "A" 15 2 none none none,
          Post.mk "B" 15 1 none none none] ∧
      (Post.mk "A" 5 1 none none none).created < (20 : Int) ∧
      (Post.mk "A" 5 1 none none none).created < (10 : Int)) ∧
    ((top []
        { limit := some (JSNum.mk 5 0), start_date := 10, end_date := 20
          sort_by := "contributions", retrieve_by := "projects"
          include_rewards := false, only_new := true, cacheId := "k" }
        [Post.mk "A" 5 1 none none none, Post.mk "A" 15 2 none none none,
          Post.mk "B" 15 1 none none none]).matchLower = none ∧
      (∀ g : RepoGroup,
        Entry.repo g ∈
            ((top []
              { limit := some (JSNum.mk 5 0), start_date := 10, end_date := 20
                sort_by := "contributions", retrieve_by := "projects"
                include_rewards := false, only_new := true, cacheId := "k" }
              [Post.mk "A" 5 1 none none none, Post.mk "A" 15 2 none none none,
                Post.mk "B" 15 1 none none none]).finalTask.results.getD []) →
          g.posts = none ∧ g.project ≠ "A")) := by
  constructor
  · exact ⟨by decide, by decide, by decide⟩
  · exact only_new_projects_excludes []
      { limit := some (JSNum.mk 5 0), start_date := 10, end_date := 20
        sort_by := "contributions", retrieve_by := "projects"
        include_rewards := false, only_new := true, cacheId := "k" }
      [Post.mk "A" 5 1 none none none, Post.mk "A" 15 2 none none none,
        Post.mk "B" 15 1 none none none]
      "A" (Post.mk "A" 5 1 none none none)
      rfl rfl (by decide) rfl (by decide) (by decide)
